import Mathlib

/-!
# Verification of the workflow state-tracking and reconciliation engine

Shallow embedding of `monitoring/api/app.py` from the
`leglength-deployment` repository: the workflow store schema
(`study_workflows`, `pending_jobs`), the tracking HTTP handlers, the
job-completion poller, the Bookkeeper enrichment reconciler, the funnel
aggregator, and the recovery/sync engine.

Timestamps are modelled as `Nat`; SQL `NULL` as `Option.none`; SQL
`COALESCE(a, b)` as `coalesce a b` (first non-null wins); JSON request
fields that may be absent as `Option`; the JSON value of a `success`
field (absent / null / boolean, as seen by Python `data.get('success',
False)`) as `SuccessVal`.
-/

namespace LegLength

/-- SQL `COALESCE(a, b)`: `a` if non-null, else `b`. -/
def coalesce {α : Type} (a b : Option α) : Option α :=
  match a with
  | some v => some v
  | none => b

/-- Python `str.upper()` (written over the character list so the kernel
can evaluate it). -/
def strUpper (s : String) : String := String.mk (s.data.map Char.toUpper)

/-- Python `a or b` on optional strings: `None` and the empty string are
falsy and fall through to `b`. Used for
`job_info.get('ErrorDescription') or job_info.get('ErrorCode') or 'Unknown error'`. -/
def pyOrStr (a b : Option String) : Option String :=
  match a with
  | some s => if s = "" then b else some s
  | none => b

/-- One `(sent_at, send_success, send_error)` column triple of
`study_workflows`: the gateway-send (`mercure_*`) triple or one of the
three destination triples (`lpch_*`, `lpcht_*`, `modlink_*`). -/
structure DestTriple where
  sent_at : Option Nat
  send_success : Option Bool
  send_error : Option String
  deriving DecidableEq, Repr

/-- The all-NULL triple of a freshly inserted row. -/
def DestTriple.empty : DestTriple := ⟨none, none, none⟩

/-- A row of the `study_workflows` table (key `study_id` kept outside,
in the association list). -/
structure StudyWorkflow where
  study_instance_uid : Option String
  patient_name : Option String
  study_description : Option String
  mercure : DestTriple
  mercure_received_at : Option Nat
  mercure_processing_started_at : Option Nat
  mercure_processing_completed_at : Option Nat
  ai_results_received_at : Option Nat
  ai_results_received : Bool
  lpch : DestTriple
  lpcht : DestTriple
  modlink : DestTriple
  created_at : Nat
  updated_at : Nat
  deriving DecidableEq, Repr

/-- A row of the `pending_jobs` table. -/
structure PendingJob where
  job_id : String
  study_id : String
  destination : String
  queued_at : Nat
  deriving DecidableEq, Repr

/-- The workflow store: the `study_workflows` table as an association
list keyed by `study_id`, and the `pending_jobs` table. -/
structure DB where
  workflows : List (String × StudyWorkflow)
  jobs : List PendingJob
  deriving DecidableEq, Repr

def DB.empty : DB := ⟨[], []⟩

/-- `SELECT ... WHERE study_id = s` on an association list (first match;
rows are keyed by the primary key, so at most one matches). -/
def alookup {β : Type} : List (String × β) → String → Option β
  | [], _ => none
  | (k, v) :: rest, s => if k = s then some v else alookup rest s

/-- `UPDATE ... WHERE study_id = s`, applying `f` to the matching row. -/
def aupdate {β : Type} (f : β → β) : List (String × β) → String → List (String × β)
  | [], _ => []
  | (k, v) :: rest, s =>
      if k = s then (k, f v) :: aupdate f rest s else (k, v) :: aupdate f rest s

/-- `DELETE ... WHERE study_id = s` (removes every matching row). -/
def adelete {β : Type} : List (String × β) → String → List (String × β)
  | [], _ => []
  | (k, v) :: rest, s =>
      if k = s then adelete rest s else (k, v) :: adelete rest s

/-! ## Destination column families -/

/-- Column-prefix families of `study_workflows`: `mercure_*`, `lpch_*`,
`lpcht_*`, `modlink_*`. -/
inductive Dest where
  | mercure
  | lpch
  | lpcht
  | modlink
  deriving DecidableEq, Repr

/-- Read the `(sent_at, send_success, send_error)` triple of a column family. -/
def getTriple (d : Dest) (w : StudyWorkflow) : DestTriple :=
  match d with
  | .mercure => w.mercure
  | .lpch => w.lpch
  | .lpcht => w.lpcht
  | .modlink => w.modlink

/-- Write the `(sent_at, send_success, send_error)` triple of a column family. -/
def setTriple (d : Dest) (t : DestTriple) (w : StudyWorkflow) : StudyWorkflow :=
  match d with
  | .mercure => { w with mercure := t }
  | .lpch => { w with lpch := t }
  | .lpcht => { w with lpcht := t }
  | .modlink => { w with modlink := t }

/-- The poller's `col_map` in `update_workflow_status` (applied to the
already-uppercased destination string); it recognizes `MERCURE`,
`LPCHROUTER`/`LPCH`, `LPCHTROUTER`/`LPCHT`, and `MODLINK`. -/
def pollerColMap (d : String) : Option Dest :=
  if d = "MERCURE" then some .mercure
  else if d = "LPCHROUTER" then some .lpch
  else if d = "LPCH" then some .lpch
  else if d = "LPCHTROUTER" then some .lpcht
  else if d = "LPCHT" then some .lpcht
  else if d = "MODLINK" then some .modlink
  else none

/-- The `col_map` in `track_destination` (no `MERCURE` entry: the
handler treats `MERCURE` in a separate branch). -/
def destColMap (d : String) : Option Dest :=
  if d = "LPCHROUTER" then some .lpch
  else if d = "LPCH" then some .lpch
  else if d = "LPCHTROUTER" then some .lpcht
  else if d = "LPCHT" then some .lpcht
  else if d = "MODLINK" then some .modlink
  else none

/-! ## Tracking API handlers -/

/-- The JSON value found under `success` in a request body, as observed
by Python `data.get('success', False)`: the key may be absent (default
`False`), explicitly `null` (Python `None`), or a boolean. -/
inductive SuccessVal where
  | absent
  | null
  | bool (v : Bool)
  deriving DecidableEq, Repr

/-- The value Python passes to the SQL parameter for `success`:
`data.get('success', False)` gives `False` when the key is absent,
`None` (SQL `NULL`) when the JSON value is `null`, and the boolean
otherwise. -/
def SuccessVal.toDb : SuccessVal → Option Bool
  | .absent => some false
  | .null => none
  | .bool v => some v

/-- Request body of `POST /track/start`. -/
structure StartBody where
  study_id : Option String
  study_instance_uid : Option String
  patient_name : Option String
  study_description : Option String
  deriving DecidableEq, Repr

/-- A fresh `study_workflows` row as inserted by `track_start`
(everything beyond the identifying fields left at its column default:
`NULL`, with `ai_results_received DEFAULT FALSE`). -/
def freshRow (body : StartBody) (now : Nat) : StudyWorkflow where
  study_instance_uid := body.study_instance_uid
  patient_name := body.patient_name
  study_description := body.study_description
  mercure := DestTriple.empty
  mercure_received_at := none
  mercure_processing_started_at := none
  mercure_processing_completed_at := none
  ai_results_received_at := none
  ai_results_received := false
  lpch := DestTriple.empty
  lpcht := DestTriple.empty
  modlink := DestTriple.empty
  created_at := now
  updated_at := now

/-- `POST /track/start`: missing `study_id` → 400; otherwise
`INSERT ... ON CONFLICT (study_id) DO UPDATE SET
field = COALESCE(EXCLUDED.field, study_workflows.field)` for
`patient_name`, `study_description`, `study_instance_uid`.
`EXCLUDED` is the newly proposed row, so a non-null new value wins. -/
def track_start (body : StartBody) (now : Nat) (db : DB) : Nat × DB :=
  match body.study_id with
  | none => (400, db)
  | some sid =>
      match alookup db.workflows sid with
      | none => (200, { db with workflows := db.workflows ++ [(sid, freshRow body now)] })
      | some _ =>
          (200, { db with workflows := aupdate (fun w =>
            { w with
              patient_name := coalesce body.patient_name w.patient_name
              study_description := coalesce body.study_description w.study_description
              study_instance_uid := coalesce body.study_instance_uid w.study_instance_uid
              updated_at := now }) db.workflows sid })

/-- `UPDATE ... WHERE study_id = %s` with a possibly-`None` Python value:
a SQL `col = NULL` comparison matches no row, so a missing `study_id`
updates nothing. -/
def updateWhere (sid : Option String) (f : StudyWorkflow → StudyWorkflow) (db : DB) : DB :=
  match sid with
  | none => db
  | some s => { db with workflows := aupdate f db.workflows s }

/-- `POST /track/mercure-sent`: no field validation; unconditionally
`UPDATE ... SET mercure_sent_at = NOW(), mercure_send_success = %s,
mercure_send_error = %s` on the matching row and return 200. -/
def track_mercure_sent (study_id : Option String) (success : SuccessVal)
    (error : Option String) (now : Nat) (db : DB) : Nat × DB :=
  (200, updateWhere study_id (fun w =>
    { w with
      mercure := { sent_at := some now, send_success := success.toDb, send_error := error }
      updated_at := now }) db)

/-- `POST /track/ai-results`: marks AI results received and
retroactively sets `mercure_send_success = TRUE`,
`mercure_sent_at = COALESCE(mercure_sent_at, NOW())`. -/
def track_ai_results (study_id : Option String) (now : Nat) (db : DB) : Nat × DB :=
  (200, updateWhere study_id (fun w =>
    { w with
      ai_results_received_at := some now
      ai_results_received := true
      mercure := { sent_at := coalesce w.mercure.sent_at (some now)
                   send_success := some true
                   send_error := w.mercure.send_error }
      updated_at := now }) db)

/-- `POST /track/destination`: `destination = data.get('destination', '').upper()`;
`MERCURE` updates the gateway triple, other recognized names the
matching destination triple (`sent_at` overwritten with `NOW()`, not
coalesced), unknown names → 400. `study_id` is never validated. -/
def track_destination (study_id : Option String) (destination : Option String)
    (success : SuccessVal) (error : Option String) (now : Nat) (db : DB) : Nat × DB :=
  let d := strUpper (destination.getD "")
  if d = "MERCURE" then
    (200, updateWhere study_id (fun w =>
      { w with
        mercure := { sent_at := some now, send_success := success.toDb, send_error := error }
        updated_at := now }) db)
  else
    match destColMap d with
    | none => (400, db)
    | some p =>
        (200, updateWhere study_id (fun w =>
          setTriple p
            { sent_at := some now, send_success := success.toDb, send_error := error }
            { w with updated_at := now }) db)

/-- `POST /track/reset`: missing `study_id` → 400; otherwise delete the
`study_workflows` row, delete the study's `pending_jobs` rows, and
report `deleted = cur.rowcount` — the row count of the **last**
`execute`, i.e. the number of `pending_jobs` rows removed only. -/
def track_reset (study_id : Option String) (db : DB) : Nat × Nat × DB :=
  match study_id with
  | none => (400, 0, db)
  | some s =>
      let deletedJobs := (db.jobs.filter (fun j => j.study_id = s)).length
      (200, deletedJobs,
        { workflows := adelete db.workflows s
          jobs := db.jobs.filter (fun j => j.study_id ≠ s) })

/-- Python truthiness of an optional string: `None` and `''` are falsy. -/
def truthy (s : Option String) : Bool :=
  match s with
  | none => false
  | some v => v ≠ ""

/-- `POST /track/job`: `destination` is uppercased first; then
`all([job_id, study_id, destination])` rejects a missing or empty field
with 400. Otherwise upsert into `pending_jobs`
(`ON CONFLICT (job_id) DO UPDATE` refreshing all fields). -/
def track_job (job_id study_id destination : Option String) (now : Nat) (db : DB) :
    Nat × DB :=
  let d := strUpper (destination.getD "")
  if truthy job_id && truthy study_id && d ≠ "" then
    let jid := job_id.getD ""
    let sid := study_id.getD ""
    let newJob : PendingJob := ⟨jid, sid, d, now⟩
    if db.jobs.any (fun j => j.job_id = jid) then
      (200, { db with jobs := db.jobs.map (fun j => if j.job_id = jid then newJob else j) })
    else
      (200, { db with jobs := db.jobs ++ [newJob] })
  else
    (400, db)

/-! ## Job Completion Poller -/

/-- Outcome of the poller's `GET {ORTHANC_URL}/jobs/{job_id}` probe for
one pending job: HTTP 404, a JSON body with a `State` string (and
optional `ErrorDescription` / `ErrorCode`), or a transport error
(`requests.exceptions.RequestException`). -/
inductive JobStatusResp where
  | notFound
  | ok (state : String) (errorDescription : Option String) (errorCode : Option String)
  | transportError
  deriving DecidableEq, Repr

/-- `job_info.get('ErrorDescription') or job_info.get('ErrorCode') or 'Unknown error'`
(Python `or`: `None` and `''` fall through). -/
def jobErrorMsg (desc code : Option String) : String :=
  (pyOrStr desc (pyOrStr code (some "Unknown error"))).getD "Unknown error"

/-- `update_workflow_status(cur, study_id, destination, success, error)`:
looks up the uppercased destination in `col_map`; unknown names are
logged and ignored; otherwise
`SET {p}_sent_at = COALESCE({p}_sent_at, NOW()), {p}_send_success = %s,
{p}_send_error = %s, updated_at = NOW() WHERE study_id = %s`. -/
def update_workflow_status (study_id destination : String) (success : Bool)
    (error : Option String) (now : Nat) (db : DB) : DB :=
  match pollerColMap (strUpper destination) with
  | none => db
  | some p =>
      { db with workflows := aupdate (fun w =>
          setTriple p
            { sent_at := coalesce (getTriple p w).sent_at (some now)
              send_success := some success
              send_error := error }
            { w with updated_at := now }) db.workflows study_id }

/-- Remove a pending job by `job_id` (`DELETE FROM pending_jobs WHERE job_id = %s`). -/
def deleteJob (jid : String) (db : DB) : DB :=
  { db with jobs := db.jobs.filter (fun x => x.job_id ≠ jid) }

/-- One iteration of the poller's per-job branch in `poll_pending_jobs`:
404 → delete the pending job only; `Success` → record success (null
error) and delete; `Failure` → record failure with the extracted message
and delete; `Running`/`Pending`/`Paused`, any unknown state, or a
transport error → leave everything unchanged (retry next cycle). -/
def pollerHandleJob (j : PendingJob) (resp : JobStatusResp) (now : Nat) (db : DB) : DB :=
  match resp with
  | .notFound => deleteJob j.job_id db
  | .transportError => db
  | .ok state desc code =>
      if state = "Success" then
        deleteJob j.job_id (update_workflow_status j.study_id j.destination true none now db)
      else if state = "Failure" then
        deleteJob j.job_id
          (update_workflow_status j.study_id j.destination false
            (some (jobErrorMsg desc code)) now db)
      else
        db

/-! ## External-Process Enrichment Reconciler -/

/-- What the Bookkeeper analytics database holds for one study:
`MIN(time)` over its `dicom_series` rows, and its `task_events`
(as `(event, time)` pairs in ascending time order). -/
structure BookkeeperStudy where
  receivedAt : Option Nat
  taskEvents : List (String × Nat)
  deriving DecidableEq, Repr

/-- First event time whose uppercased name equals `name` (the loop in
`enrich_workflows_from_mercure` keeps the first match:
`if event_type == ... and processing_started is None`). -/
def firstEventTime (name : String) : List (String × Nat) → Option Nat
  | [] => none
  | (e, t) :: rest => if strUpper e = name then some t else firstEventTime name rest

/-- Per-study row update of `enrich_workflows_from_mercure`. The handler
hardcodes `events = []` ("Mercure doesn't populate study_uid in tasks
... Skip processing timestamp extraction for now"), so the Bookkeeper's
task events are never consulted; only `mercure_received_at` can receive
a value, and every column is written with `COALESCE(old, new)`
(first write wins). -/
def enrichRow (bk : BookkeeperStudy) (now : Nat) (w : StudyWorkflow) : StudyWorkflow :=
  let events : List (String × Nat) := []
  let started := firstEventTime "PROCESS_BEGIN" events
  let completed := firstEventTime "PROCESS_COMPLETE" events
  { w with
    mercure_received_at := coalesce w.mercure_received_at bk.receivedAt
    mercure_processing_started_at := coalesce w.mercure_processing_started_at started
    mercure_processing_completed_at := coalesce w.mercure_processing_completed_at completed
    updated_at := now }

/-- The reconciler's selection criterion: sent to Mercure but missing at
least one of the three processing timestamps. -/
def needsEnrichment (w : StudyWorkflow) : Bool :=
  w.mercure.sent_at ≠ none &&
    (w.mercure_received_at = none || w.mercure_processing_started_at = none ||
      w.mercure_processing_completed_at = none)

/-- One study's enrichment transaction applied to the store. -/
def enrichStudyStep (study_id : String) (bk : BookkeeperStudy) (now : Nat) (db : DB) : DB :=
  { db with workflows := aupdate (enrichRow bk now) db.workflows study_id }

/-! ## Existence checks (Funnel Aggregator / workflow listing) -/

/-- Result of `requests.get(f"{orthanc_api_url}/studies/{study_id}")`. -/
inductive CheckResult where
  | status (code : Nat)
  | netError
  deriving DecidableEq, Repr

/-- The filtering loop of `GET /workflows`: skip a row iff the check
returns 404 (`if resp.status_code == 404: continue`); a transport error
(`except requests.RequestException: pass`) keeps the row. -/
def workflowsSurvivors (check : String → CheckResult) : List String → List String
  | [] => []
  | s :: rest =>
      match check s with
      | .status c =>
          if c = 404 then workflowsSurvivors check rest
          else s :: workflowsSurvivors check rest
      | .netError => s :: workflowsSurvivors check rest

/-- The filtering loop of `GET /funnel`: keep a study iff the check
returns 200 (`if resp.status_code == 200: existing_study_ids.append`);
a transport error keeps the study. -/
def funnelSurvivors (check : String → CheckResult) : List String → List String
  | [] => []
  | s :: rest =>
      match check s with
      | .status c =>
          if c = 200 then s :: funnelSurvivors check rest
          else funnelSurvivors check rest
      | .netError => s :: funnelSurvivors check rest

/-- What the claim says both loops do: exclude iff 404, fail open. -/
def specKeepExcludedIff404 (r : CheckResult) : Bool :=
  match r with
  | .status c => c ≠ 404
  | .netError => true

/-- What the `GET /funnel` loop actually does: keep iff 200 or transport error. -/
def funnelKeep (r : CheckResult) : Bool :=
  match r with
  | .status c => c = 200
  | .netError => true

/-! ## Funnel Aggregator -/

/-- The aggregate row produced by the `SELECT COUNT(*) FILTER ...`
query of `GET /funnel` over the surviving studies. -/
structure Stats where
  total_studies : Nat
  sent_to_mercure : Nat
  mercure_sent_ok : Nat
  mercure_sent_failed : Nat
  mercure_received : Nat
  mercure_processing : Nat
  mercure_completed : Nat
  ai_results_received : Nat
  ai_results_waiting : Nat
  lpch_attempted : Nat
  lpch_sent_ok : Nat
  lpch_sent_failed : Nat
  lpcht_attempted : Nat
  lpcht_sent_ok : Nat
  lpcht_sent_failed : Nat
  modlink_attempted : Nat
  modlink_sent_ok : Nat
  modlink_sent_failed : Nat
  fully_complete : Nat
  deriving DecidableEq, Repr

/-- Count the rows of `ws` satisfying `p` (`COUNT(*) FILTER (WHERE p)`). -/
def countWhere (p : StudyWorkflow → Bool) (ws : List StudyWorkflow) : Nat :=
  (ws.filter p).length

/-- The funnel statistics query as a function of the surviving rows. -/
def computeStats (ws : List StudyWorkflow) : Stats where
  total_studies := ws.length
  sent_to_mercure := countWhere (fun w => w.mercure.sent_at ≠ none) ws
  mercure_sent_ok := countWhere (fun w => w.mercure.send_success = some true) ws
  mercure_sent_failed := countWhere (fun w => w.mercure.send_success = some false) ws
  mercure_received := countWhere (fun w => w.mercure_received_at ≠ none) ws
  mercure_processing := countWhere (fun w => w.mercure_processing_started_at ≠ none) ws
  mercure_completed := countWhere (fun w => w.mercure_processing_completed_at ≠ none) ws
  ai_results_received := countWhere (fun w => w.ai_results_received) ws
  ai_results_waiting :=
    countWhere (fun w => w.mercure.send_success = some true && !w.ai_results_received) ws
  lpch_attempted := countWhere (fun w => w.lpch.sent_at ≠ none) ws
  lpch_sent_ok := countWhere (fun w => w.lpch.send_success = some true) ws
  lpch_sent_failed := countWhere (fun w => w.lpch.send_success = some false) ws
  lpcht_attempted := countWhere (fun w => w.lpcht.sent_at ≠ none) ws
  lpcht_sent_ok := countWhere (fun w => w.lpcht.send_success = some true) ws
  lpcht_sent_failed := countWhere (fun w => w.lpcht.send_success = some false) ws
  modlink_attempted := countWhere (fun w => w.modlink.sent_at ≠ none) ws
  modlink_sent_ok := countWhere (fun w => w.modlink.send_success = some true) ws
  modlink_sent_failed := countWhere (fun w => w.modlink.send_success = some false) ws
  fully_complete := countWhere (fun w =>
    w.ai_results_received && w.lpch.send_success = some true &&
      w.lpcht.send_success = some true && w.modlink.send_success = some true) ws

/-- Floor of a rational. -/
def ratFloor (q : ℚ) : ℤ := ⌊q⌋

/-- Python's banker's rounding (`round` rounds halves to even) on a
rational. The handler's percentages are exact decimals in the cases the
spec exercises, so the tie rule never fires there, but we keep Python's
rule. -/
def pyRoundHalfEven (q : ℚ) : ℤ :=
  let f := ratFloor q
  let r := q - (f : ℚ)
  if r < 1 / 2 then f
  else if (1 : ℚ) / 2 < r then f + 1
  else if f % 2 = 0 then f else f + 1

/-- `round(x, 1)`. -/
def round1 (q : ℚ) : ℚ := (pyRoundHalfEven (10 * q) : ℚ) / 10

/-- `def pct(n, base=None): base = base if base is not None else total;
return round(n / base * 100, 1) if base > 0 else 0`. -/
def pct (total : Nat) (n : Nat) (base : Option Nat) : ℚ :=
  let b := base.getD total
  if 0 < b then round1 ((n : ℚ) / (b : ℚ) * 100) else 0

/-- Python `x or 1` on a count. -/
def orOne (n : Nat) : Nat := if n = 0 then 1 else n

structure FunnelChild where
  name : String
  count : Nat
  percent : ℚ
  failed : Nat
  deriving DecidableEq, Repr

/-- One element of the `funnel['pipeline']` list. Entries that do not
carry a `base_count` / `failed` key are modelled with `none`. -/
structure FunnelEntry where
  stage : String
  name : String
  count : Nat
  percent : ℚ
  base_count : Option Nat
  failed : Option Nat
  status : String
  children : List FunnelChild
  deriving DecidableEq, Repr

structure FunnelSummary where
  mercure_success_rate : ℚ
  routing_success_rate : ℚ
  overall_success_rate : ℚ
  drop_mercure_send : Nat
  drop_ai_no_response : Nat
  drop_routing_failed : Nat
  deriving DecidableEq, Repr

structure Funnel where
  time_range_hours : Nat
  total_studies : Nat
  pipeline : List FunnelEntry
  summary : FunnelSummary
  deriving DecidableEq, Repr

/-- The funnel data structure built by `get_funnel` from the aggregate
statistics row (the code from `total = stats['total_studies'] or 0`
onward). -/
def buildFunnel (hours : Nat) (stats : Stats) : Funnel :=
  let total := stats.total_studies
  let ai_received := stats.ai_results_received
  let destinations_all_success := stats.fully_complete
  let destinations_any_failed :=
    stats.lpch_sent_failed + stats.lpcht_sent_failed + stats.modlink_sent_failed
  { time_range_hours := hours
    total_studies := total
    pipeline := [
      { stage := "INPUT", name := "Studies in Orthanc", count := total, percent := 100,
        base_count := none, failed := none, status := "neutral", children := [] },
      { stage := "INPUT", name := "Sent to Mercure", count := stats.sent_to_mercure,
        percent := pct total stats.sent_to_mercure none, base_count := none, failed := none,
        status := if 0 < stats.sent_to_mercure then "success" else "neutral", children := [] },
      { stage := "PROCESSING", name := "Received at Mercure", count := stats.mercure_received,
        percent := pct total stats.mercure_received (some (orOne stats.sent_to_mercure)),
        base_count := some stats.sent_to_mercure, failed := none,
        status := if 0 < stats.mercure_received then "success" else "waiting", children := [] },
      { stage := "OUTPUT", name := "AI Results Back to Orthanc", count := ai_received,
        percent := pct total ai_received (some (orOne stats.mercure_completed)),
        base_count := some stats.mercure_completed, failed := none,
        status := if 0 < ai_received then "success" else "waiting", children := [] },
      { stage := "OUTPUT", name := "Routed to Destinations", count := destinations_all_success,
        percent := pct total destinations_all_success (some (orOne ai_received)),
        base_count := some ai_received, failed := some destinations_any_failed,
        status :=
          if destinations_any_failed = 0 && 0 < ai_received then "success"
          else if 0 < destinations_any_failed then "warning" else "neutral",
        children := [
          { name := "LPCH", count := stats.lpch_sent_ok,
            percent := pct total stats.lpch_sent_ok (some (orOne ai_received)),
            failed := stats.lpch_sent_failed },
          { name := "LPCHT", count := stats.lpcht_sent_ok,
            percent := pct total stats.lpcht_sent_ok (some (orOne ai_received)),
            failed := stats.lpcht_sent_failed },
          { name := "MODLINK", count := stats.modlink_sent_ok,
            percent := pct total stats.modlink_sent_ok (some (orOne ai_received)),
            failed := stats.modlink_sent_failed }] }]
    summary :=
      { mercure_success_rate := pct total ai_received (some (orOne stats.mercure_sent_ok))
        routing_success_rate := pct total destinations_all_success (some ai_received)
        overall_success_rate := pct total stats.fully_complete none
        drop_mercure_send := stats.mercure_sent_failed
        drop_ai_no_response := stats.ai_results_waiting
        drop_routing_failed := destinations_any_failed } }

/-! ## Recovery/Sync Engine -/

/-- One row of the Bookkeeper recovery query (`SELECT DISTINCT
ds.study_uid, ds.series_uid, ... MAX(t.time) as last_task_time ...`;
`WHERE ds.study_uid IS NOT NULL`, so the UID is a plain string). -/
structure SyncRecord where
  study_uid : String
  series_uid : String
  tag_patientname : Option String
  tag_studydescription : Option String
  received_time : Nat
  last_task_time : Option Nat
  deriving DecidableEq, Repr

/-- Orthanc's view of a study, from the `orthanc_studies` map built by
`sync_workflows_from_mercure` (keyed by `StudyInstanceUID`). -/
structure OrthancStudy where
  study_id : String
  patientName : Option String
  deriving DecidableEq, Repr

/-- The row inserted by the recovery sync: gateway-send and AI-results
optimistically marked successful; unlisted columns default to NULL. -/
def syncRowFromRecord (rec : SyncRecord) (o : OrthancStudy) (now : Nat) : StudyWorkflow where
  study_instance_uid := some rec.study_uid
  patient_name := coalesce o.patientName rec.tag_patientname
  study_description := rec.tag_studydescription
  mercure := { sent_at := some rec.received_time, send_success := some true, send_error := none }
  mercure_received_at := none
  mercure_processing_started_at := none
  mercure_processing_completed_at := none
  ai_results_received_at := rec.last_task_time
  ai_results_received := true
  lpch := DestTriple.empty
  lpcht := DestTriple.empty
  modlink := DestTriple.empty
  created_at := now
  updated_at := now

/-- One iteration of the sync loop: skip if the study's UID is not in
Orthanc; skip if a workflow row for the Orthanc `study_id` already
exists (the `SELECT` sees earlier uncommitted inserts of the same run);
otherwise insert (`ON CONFLICT (study_id) DO NOTHING`). -/
def syncStep (orth : List (String × OrthancStudy)) (now : Nat) (db : DB)
    (rec : SyncRecord) : DB :=
  match alookup orth rec.study_uid with
  | none => db
  | some o =>
      match alookup db.workflows o.study_id with
      | some _ => db
      | none =>
          { db with workflows := db.workflows ++ [(o.study_id, syncRowFromRecord rec o now)] }

/-- `POST /workflows/sync`: fold the sync step over the Bookkeeper
records (all inserts commit together at the end; the response also
reports `synced` and the study list, not modelled here). -/
def syncRun (orth : List (String × OrthancStudy)) (now : Nat)
    (recs : List SyncRecord) (db : DB) : DB :=
  recs.foldl (syncStep orth now) db

/-! ## Operation language

The operations a running system interleaves on the workflow store:
Tracking API calls, per-job poller resolutions, and per-study
enrichment transactions (the quantification domain of the tri-state
invariant). -/

inductive Op where
  | start (body : StartBody)
  | mercureSent (study_id : Option String) (success : SuccessVal) (error : Option String)
  | aiResults (study_id : Option String)
  | destSend (study_id : Option String) (destination : Option String)
      (success : SuccessVal) (error : Option String)
  | reset (study_id : Option String)
  | regJob (job_id study_id destination : Option String)
  | pollJob (job_id : String) (resp : JobStatusResp)
  | enrich (study_id : String) (bk : BookkeeperStudy)
  deriving DecidableEq, Repr

/-- Apply one operation at wall-clock time `now`. The poller only acts
on jobs actually present in `pending_jobs`. -/
def applyOp (op : Op) (now : Nat) (db : DB) : DB :=
  match op with
  | .start b => (track_start b now db).2
  | .mercureSent s v e => (track_mercure_sent s v e now db).2
  | .aiResults s => (track_ai_results s now db).2
  | .destSend s d v e => (track_destination s d v e now db).2
  | .reset s => (track_reset s db).2.2
  | .regJob j s d => (track_job j s d now db).2
  | .pollJob jid resp =>
      match db.jobs.find? (fun j => j.job_id = jid) with
      | none => db
      | some j => pollerHandleJob j resp now db
  | .enrich s bk => enrichStudyStep s bk now db

/-- Fold a timestamped operation sequence over the store. -/
def applyOps (ops : List (Op × Nat)) (db : DB) : DB :=
  ops.foldl (fun d o => applyOp o.1 o.2 d) db

/-- The value (if any) that `op`, applied to `db`, writes into the
`send_success` column of column family `p` of study `s`.  `none` means
the operation does not write that column; `some v` means it overwrites
the column with `v` (where `v = Option.none` is an explicit SQL
`NULL`). -/
def writesSuccess (db : DB) (op : Op) (s : String) (p : Dest) : Option (Option Bool) :=
  match op with
  | .start _ => none
  | .mercureSent sid v _ =>
      if sid = some s ∧ p = .mercure then some v.toDb else none
  | .aiResults sid =>
      if sid = some s ∧ p = .mercure then some (some true) else none
  | .destSend sid dst v _ =>
      let d := strUpper (dst.getD "")
      if sid = some s then
        if d = "MERCURE" then
          if p = .mercure then some v.toDb else none
        else
          match destColMap d with
          | some q => if q = p then some v.toDb else none
          | none => none
      else none
  | .reset _ => none
  | .regJob _ _ _ => none
  | .pollJob jid resp =>
      match db.jobs.find? (fun j => j.job_id = jid) with
      | none => none
      | some j =>
          match resp with
          | .ok st _ _ =>
              if pollerColMap (strUpper j.destination) = some p ∧ j.study_id = s then
                if st = "Success" then some (some true)
                else if st = "Failure" then some (some false)
                else none
              else none
          | _ => none
  | .enrich _ _ => none

/-! ## Helper lemmas -/

@[simp] theorem coalesce_some {α : Type} (v : α) (b : Option α) :
    coalesce (some v) b = some v := rfl

@[simp] theorem coalesce_none {α : Type} (b : Option α) :
    coalesce none b = b := rfl

theorem coalesce_ne_none_left {α : Type} {a b : Option α} (h : a ≠ none) :
    coalesce a b = a := by
  cases a with
  | none => exact absurd rfl h
  | some v => rfl

theorem coalesce_ne_none_of_right {α : Type} {b : Option α} (a : Option α)
    (h : b ≠ none) : coalesce a b ≠ none := by
  cases a with
  | none => simpa [coalesce] using h
  | some v => simp [coalesce]

@[simp] theorem alookup_nil {β : Type} (s : String) :
    alookup ([] : List (String × β)) s = none := rfl

@[simp] theorem alookup_cons {β : Type} (k : String) (v : β)
    (rest : List (String × β)) (s : String) :
    alookup ((k, v) :: rest) s = if k = s then some v else alookup rest s := rfl

theorem alookup_aupdate {β : Type} (f : β → β) (l : List (String × β)) (s s' : String) :
    alookup (aupdate f l s) s' =
      if s' = s then (alookup l s').map f else alookup l s' := by
  induction l with
  | nil => simp [aupdate]
  | cons kv rest ih =>
      obtain ⟨k, v⟩ := kv
      by_cases hks : k = s
      · subst hks
        by_cases hks' : k = s'
        · subst hks'
          simp [aupdate]
        · have hne : ¬s' = k := fun h => hks' h.symm
          simp [aupdate, hks', hne, ih]
      · by_cases hks' : k = s'
        · subst hks'
          simp [aupdate, hks]
        · simp [aupdate, hks, hks', ih]

theorem alookup_adelete {β : Type} (l : List (String × β)) (s s' : String) :
    alookup (adelete l s) s' = if s' = s then none else alookup l s' := by
  induction l with
  | nil => simp [adelete]
  | cons kv rest ih =>
      obtain ⟨k, v⟩ := kv
      by_cases hks : k = s
      · subst hks
        by_cases hks' : k = s'
        · subst hks'
          simp [adelete, ih]
        · have hne : ¬s' = k := fun h => hks' h.symm
          simp [adelete, hne, hks', ih]
      · by_cases hks' : k = s'
        · subst hks'
          have hne : ¬k = s := hks
          simp [adelete, hne, hks]
        · simp [adelete, hks, hks', ih]

@[simp] theorem getTriple_setTriple (d : Dest) (t : DestTriple) (w : StudyWorkflow) :
    getTriple d (setTriple d t w) = t := by
  cases d <;> rfl

theorem alookup_append {β : Type} (l m : List (String × β)) (s : String) :
    alookup (l ++ m) s = coalesce (alookup l s) (alookup m s) := by
  induction l with
  | nil => simp
  | cons kv rest ih =>
      obtain ⟨k, v⟩ := kv
      by_cases hk : k = s
      · simp [hk]
      · simp [hk, ih]

theorem lookup_updateWhere (sid : Option String) (f : StudyWorkflow → StudyWorkflow)
    (db : DB) (s : String) :
    alookup (updateWhere sid f db).workflows s =
      if sid = some s then (alookup db.workflows s).map f else alookup db.workflows s := by
  cases sid with
  | none => simp [updateWhere]
  | some s0 =>
      simp only [updateWhere]
      rw [alookup_aupdate]
      by_cases h : s = s0
      · subst h; simp
      · have hne : ¬some s0 = some s := by
          intro hh
          exact h (Option.some.inj hh).symm
        rw [if_neg h, if_neg hne]

theorem getTriple_update_meta (p : Dest) (w : StudyWorkflow) (n : Nat) :
    getTriple p { w with updated_at := n } = getTriple p w := by
  cases p <;> rfl

theorem getTriple_setTriple_ne (p q : Dest) (t : DestTriple) (w : StudyWorkflow)
    (h : q ≠ p) : getTriple p (setTriple q t w) = getTriple p w := by
  cases p <;> cases q <;> first | rfl | exact absurd rfl h

theorem coalesce_none_right {α : Type} (a : Option α) : coalesce a none = a := by
  cases a <;> rfl

theorem coalesce_assoc {α : Type} (a b c : Option α) :
    coalesce (coalesce a b) c = coalesce a (coalesce b c) := by
  cases a <;> cases b <;> rfl

/-! ## Claim theorems -/

/-- C3, counterexample: the claim says a repeated `track/start` keeps a
previously-set non-null field; the handler's
`COALESCE(EXCLUDED.patient_name, study_workflows.patient_name)` takes
the **new** value first, so starting `S1` with `patient_name = "A"` and
then again with `patient_name = "B"` leaves `"B"`, not `"A"`. -/
theorem track_start_overwrites_nonnull :
    (alookup (track_start ⟨some "S1", none, some "B", none⟩ 1
        (track_start ⟨some "S1", none, some "A", none⟩ 0 DB.empty).2).2.workflows
        "S1").map StudyWorkflow.patient_name = some (some "B") ∧
    (alookup (track_start ⟨some "S1", none, some "B", none⟩ 1
        (track_start ⟨some "S1", none, some "A", none⟩ 0 DB.empty).2).2.workflows
        "S1").map StudyWorkflow.patient_name ≠ some (some "A") := by
  decide

/-- C3, amended: a second `POST /track/start` for an already-tracked
study never nulls out a previously-set field — each of
`study_instance_uid`, `patient_name`, `study_description` becomes
`COALESCE(new, old)`: the newly supplied value when it is non-null
(overwriting even a non-null prior value), and the retained prior value
when the new value is null. -/
theorem track_start_second_call_upsert (body : StartBody) (now : Nat) (db : DB)
    (s : String) (w : StudyWorkflow)
    (hsid : body.study_id = some s) (hw : alookup db.workflows s = some w) :
    ∃ r, alookup (track_start body now db).2.workflows s = some r ∧
      r.patient_name = coalesce body.patient_name w.patient_name ∧
      r.study_description = coalesce body.study_description w.study_description ∧
      r.study_instance_uid = coalesce body.study_instance_uid w.study_instance_uid ∧
      (w.patient_name ≠ none → r.patient_name ≠ none) ∧
      (w.study_description ≠ none → r.study_description ≠ none) ∧
      (w.study_instance_uid ≠ none → r.study_instance_uid ≠ none) := by
  have h1 : alookup (track_start body now db).2.workflows s = some
      { w with
        patient_name := coalesce body.patient_name w.patient_name
        study_description := coalesce body.study_description w.study_description
        study_instance_uid := coalesce body.study_instance_uid w.study_instance_uid
        updated_at := now } := by
    simp only [track_start, hsid, hw]
    rw [alookup_aupdate]
    simp [hw]
  exact ⟨_, h1, rfl, rfl, rfl,
    fun h => coalesce_ne_none_of_right _ h,
    fun h => coalesce_ne_none_of_right _ h,
    fun h => coalesce_ne_none_of_right _ h⟩

/-- C3, witness for the amended theorem at the concrete second call of
the counterexample scenario. -/
theorem track_start_second_call_upsert_witness :
    ∃ r, alookup (track_start ⟨some "S1", none, some "B", none⟩ 1
        (track_start ⟨some "S1", none, some "A", none⟩ 0 DB.empty).2).2.workflows
        "S1" = some r ∧
      r.patient_name = coalesce (some "B") (some "A") ∧
      r.study_description = coalesce none none ∧
      r.study_instance_uid = coalesce none none ∧
      ((some "A" : Option String) ≠ none → r.patient_name ≠ none) ∧
      ((none : Option String) ≠ none → r.study_description ≠ none) ∧
      ((none : Option String) ≠ none → r.study_instance_uid ≠ none) :=
  track_start_second_call_upsert ⟨some "S1", none, some "B", none⟩ 1
    (track_start ⟨some "S1", none, some "A", none⟩ 0 DB.empty).2
    "S1" (freshRow ⟨some "S1", none, some "A", none⟩ 0) rfl (by decide)

/-- C4, counterexample: the claim says an enrichment cycle fills in all
three processing timestamps from the analytics database; the handler
hardcodes `events = []` before the extraction loop, so even when the
Bookkeeper holds `PROCESS_BEGIN`/`PROCESS_COMPLETE` events for the
study, `mercure_processing_started_at` and
`mercure_processing_completed_at` stay null — only
`mercure_received_at` is filled in. -/
theorem enrich_never_fills_processing_timestamps :
    needsEnrichment { freshRow ⟨some "S1", some "U1", none, none⟩ 0 with
      mercure := ⟨some 1, some true, none⟩ } = true ∧
    firstEventTime "PROCESS_BEGIN"
      (BookkeeperStudy.taskEvents ⟨some 2, [("PROCESS_BEGIN", 3), ("PROCESS_COMPLETE", 4)]⟩)
      = some 3 ∧
    (enrichRow ⟨some 2, [("PROCESS_BEGIN", 3), ("PROCESS_COMPLETE", 4)]⟩ 9
        { freshRow ⟨some "S1", some "U1", none, none⟩ 0 with
          mercure := ⟨some 1, some true, none⟩ }).mercure_received_at = some 2 ∧
    (enrichRow ⟨some 2, [("PROCESS_BEGIN", 3), ("PROCESS_COMPLETE", 4)]⟩ 9
        { freshRow ⟨some "S1", some "U1", none, none⟩ 0 with
          mercure := ⟨some 1, some true, none⟩ }).mercure_processing_started_at = none ∧
    (enrichRow ⟨some 2, [("PROCESS_BEGIN", 3), ("PROCESS_COMPLETE", 4)]⟩ 9
        { freshRow ⟨some "S1", some "U1", none, none⟩ 0 with
          mercure := ⟨some 1, some true, none⟩ }).mercure_processing_completed_at = none := by
  decide

/-- C4, amended: each enrichment pass sets only `mercure_received_at`,
and only if currently null (`COALESCE(old, new)`: first write wins); it
never touches the processing started/completed timestamps (they are
written with a null source value); an already non-null `received_at` is
never changed, so of two passes observing different values the earlier
one is retained. -/
theorem enrichRow_first_write_wins (bk bk2 : BookkeeperStudy) (t t2 v : Nat)
    (w : StudyWorkflow) :
    (enrichRow bk t w).mercure_received_at = coalesce w.mercure_received_at bk.receivedAt ∧
    (enrichRow bk t w).mercure_processing_started_at = w.mercure_processing_started_at ∧
    (enrichRow bk t w).mercure_processing_completed_at = w.mercure_processing_completed_at ∧
    (enrichRow bk t { w with mercure_received_at := some v }).mercure_received_at = some v ∧
    (enrichRow bk2 t2 (enrichRow bk t w)).mercure_received_at =
      coalesce w.mercure_received_at (coalesce bk.receivedAt bk2.receivedAt) := by
  refine ⟨rfl, ?_, ?_, rfl, ?_⟩
  · simp [enrichRow, firstEventTime, coalesce_none_right]
  · simp [enrichRow, firstEventTime, coalesce_none_right]
  · simp [enrichRow, coalesce_assoc]

/-- C5, counterexample: the claim says `track/reset` reports the total
number of rows removed; the handler reports `cur.rowcount` of the
**last** `DELETE` (pending jobs only), so resetting a tracked study with
no pending jobs removes one `study_workflows` row yet reports
`deleted = 0`. -/
theorem track_reset_count_misses_workflow_row :
    alookup (DB.mk [("S1", freshRow ⟨some "S1", none, none, none⟩ 0)] []).workflows "S1"
      ≠ none ∧
    (track_reset (some "S1")
      (DB.mk [("S1", freshRow ⟨some "S1", none, none, none⟩ 0)] [])).2.1 = 0 ∧
    alookup (track_reset (some "S1")
      (DB.mk [("S1", freshRow ⟨some "S1", none, none, none⟩ 0)] [])).2.2.workflows "S1"
      = none := by
  decide

/-- C5, amended: after `POST /track/reset` for a tracked or untracked
`study_id`, the `study_workflows` row and all of the study's
`pending_jobs` rows are absent and the status is 200; `deleted` reports
only the number of `pending_jobs` rows removed (the row count of the
final `DELETE`), which is 0 when the study had no pending jobs —
whether or not a workflow row was removed. -/
theorem track_reset_removes_study (db : DB) (s : String) :
    (track_reset (some s) db).1 = 200 ∧
    alookup (track_reset (some s) db).2.2.workflows s = none ∧
    (track_reset (some s) db).2.2.jobs = db.jobs.filter (fun j => j.study_id ≠ s) ∧
    (track_reset (some s) db).2.1 = (db.jobs.filter (fun j => j.study_id = s)).length := by
  refine ⟨rfl, ?_, rfl, rfl⟩
  simp [track_reset, alookup_adelete]

/-- C6, counterexample: the claim says both `GET /funnel` and
`GET /workflows` exclude a study iff the existence check returns 404;
on a 500 response the funnel loop (keep iff 200) excludes the study
while the workflows loop (skip iff 404) keeps it. -/
theorem funnel_excludes_non_200 :
    funnelSurvivors (fun _ => CheckResult.status 500) ["S1"] = [] ∧
    workflowsSurvivors (fun _ => CheckResult.status 500) ["S1"] = ["S1"] ∧
    specKeepExcludedIff404 (CheckResult.status 500) = true := by
  decide

/-- C6, amended: `GET /workflows` excludes a loaded study iff the
Orthanc existence check returns 404 and keeps it on transport error
(fail open); `GET /funnel` keeps a study iff the check returns 200 or a
transport error occurs — any other status (404, 500, ...) excludes it. -/
theorem survivors_filter_characterization (check : String → CheckResult)
    (ids : List String) :
    workflowsSurvivors check ids =
      ids.filter (fun s => specKeepExcludedIff404 (check s)) ∧
    funnelSurvivors check ids = ids.filter (fun s => funnelKeep (check s)) := by
  constructor
  · induction ids with
    | nil => rfl
    | cons s rest ih =>
        cases hc : check s with
        | status c =>
            by_cases h4 : c = 404
            · subst h4
              simp [workflowsSurvivors, hc, specKeepExcludedIff404, ih]
            · simp [workflowsSurvivors, hc, specKeepExcludedIff404, h4, ih]
        | netError => simp [workflowsSurvivors, hc, specKeepExcludedIff404, ih]
  · induction ids with
    | nil => rfl
    | cons s rest ih =>
        cases hc : check s with
        | status c =>
            by_cases h2 : c = 200
            · subst h2
              simp [funnelSurvivors, hc, funnelKeep, ih]
            · simp [funnelSurvivors, hc, funnelKeep, h2, ih]
        | netError => simp [funnelSurvivors, hc, funnelKeep, ih]

/-- C10: when a polled job's state is `Success` or `Failure` but its
destination is not a recognized spelling (`col_map` lookup on the
uppercased name fails), the poller still deletes the `pending_jobs` row
while `update_workflow_status` returns without touching any
`study_workflows` column, so the terminal outcome is recorded
nowhere. -/
theorem poller_unknown_destination (j : PendingJob) (desc code : Option String)
    (now : Nat) (db : DB)
    (h : pollerColMap (strUpper j.destination) = none) :
    ((pollerHandleJob j (.ok "Success" desc code) now db).workflows = db.workflows ∧
     (pollerHandleJob j (.ok "Success" desc code) now db).jobs =
       db.jobs.filter (fun x => x.job_id ≠ j.job_id)) ∧
    ((pollerHandleJob j (.ok "Failure" desc code) now db).workflows = db.workflows ∧
     (pollerHandleJob j (.ok "Failure" desc code) now db).jobs =
       db.jobs.filter (fun x => x.job_id ≠ j.job_id)) := by
  refine ⟨⟨?_, ?_⟩, ⟨?_, ?_⟩⟩ <;>
    simp [pollerHandleJob, update_workflow_status, h, deleteJob]

/-- C10, witness: a job for the unrecognized destination `FOO` whose
poll reports `Success`/`Failure` is dropped from `pending_jobs` with the
workflow row untouched. -/
theorem poller_unknown_destination_witness :
    ((pollerHandleJob ⟨"J1", "S1", "FOO", 0⟩ (.ok "Success" none none) 5
        (DB.mk [("S1", freshRow ⟨some "S1", none, none, none⟩ 0)]
          [⟨"J1", "S1", "FOO", 0⟩])).workflows =
      (DB.mk [("S1", freshRow ⟨some "S1", none, none, none⟩ 0)]
        [⟨"J1", "S1", "FOO", 0⟩]).workflows ∧
     (pollerHandleJob ⟨"J1", "S1", "FOO", 0⟩ (.ok "Success" none none) 5
        (DB.mk [("S1", freshRow ⟨some "S1", none, none, none⟩ 0)]
          [⟨"J1", "S1", "FOO", 0⟩])).jobs =
      (DB.mk [("S1", freshRow ⟨some "S1", none, none, none⟩ 0)]
        [⟨"J1", "S1", "FOO", 0⟩]).jobs.filter
          (fun x => x.job_id ≠ PendingJob.job_id ⟨"J1", "S1", "FOO", 0⟩)) ∧
    ((pollerHandleJob ⟨"J1", "S1", "FOO", 0⟩ (.ok "Failure" none none) 5
        (DB.mk [("S1", freshRow ⟨some "S1", none, none, none⟩ 0)]
          [⟨"J1", "S1", "FOO", 0⟩])).workflows =
      (DB.mk [("S1", freshRow ⟨some "S1", none, none, none⟩ 0)]
        [⟨"J1", "S1", "FOO", 0⟩]).workflows ∧
     (pollerHandleJob ⟨"J1", "S1", "FOO", 0⟩ (.ok "Failure" none none) 5
        (DB.mk [("S1", freshRow ⟨some "S1", none, none, none⟩ 0)]
          [⟨"J1", "S1", "FOO", 0⟩])).jobs =
      (DB.mk [("S1", freshRow ⟨some "S1", none, none, none⟩ 0)]
        [⟨"J1", "S1", "FOO", 0⟩]).jobs.filter
          (fun x => x.job_id ≠ PendingJob.job_id ⟨"J1", "S1", "FOO", 0⟩)) :=
  poller_unknown_destination ⟨"J1", "S1", "FOO", 0⟩ none none 5
    (DB.mk [("S1", freshRow ⟨some "S1", none, none, none⟩ 0)]
      [⟨"J1", "S1", "FOO", 0⟩]) (by decide)

/-- C1: for a pending job with a recognized destination and an existing
workflow row — `Success` sets the destination's `send_success = true`,
`send_error = NULL`, `sent_at = COALESCE(sent_at, now)` and deletes the
pending job; `Failure` sets `send_success = false` and `send_error` to
the extracted message and deletes the pending job; a 404 deletes the
pending job with every workflow row untouched; `Running`, `Pending`,
`Paused` change nothing at all. -/
theorem poller_terminal_resolution (j : PendingJob) (p : Dest)
    (desc code : Option String) (now : Nat) (db : DB) (w : StudyWorkflow)
    (hdest : pollerColMap (strUpper j.destination) = some p)
    (hw : alookup db.workflows j.study_id = some w) :
    (alookup (pollerHandleJob j (.ok "Success" desc code) now db).workflows j.study_id =
      some (setTriple p
        { sent_at := coalesce (getTriple p w).sent_at (some now)
          send_success := some true
          send_error := none } { w with updated_at := now }) ∧
     (∀ s', s' ≠ j.study_id →
        alookup (pollerHandleJob j (.ok "Success" desc code) now db).workflows s' =
          alookup db.workflows s') ∧
     (pollerHandleJob j (.ok "Success" desc code) now db).jobs =
       db.jobs.filter (fun x => x.job_id ≠ j.job_id)) ∧
    (alookup (pollerHandleJob j (.ok "Failure" desc code) now db).workflows j.study_id =
      some (setTriple p
        { sent_at := coalesce (getTriple p w).sent_at (some now)
          send_success := some false
          send_error := some (jobErrorMsg desc code) } { w with updated_at := now }) ∧
     (pollerHandleJob j (.ok "Failure" desc code) now db).jobs =
       db.jobs.filter (fun x => x.job_id ≠ j.job_id)) ∧
    ((pollerHandleJob j .notFound now db).workflows = db.workflows ∧
     (pollerHandleJob j .notFound now db).jobs =
       db.jobs.filter (fun x => x.job_id ≠ j.job_id)) ∧
    (pollerHandleJob j (.ok "Running" desc code) now db = db ∧
     pollerHandleJob j (.ok "Pending" desc code) now db = db ∧
     pollerHandleJob j (.ok "Paused" desc code) now db = db) := by
  refine ⟨⟨?_, ?_, ?_⟩, ⟨?_, ?_⟩, ⟨rfl, rfl⟩, rfl, rfl, rfl⟩
  · simp [pollerHandleJob, update_workflow_status, hdest, deleteJob,
      alookup_aupdate, hw]
  · intro s' hs'
    simp [pollerHandleJob, update_workflow_status, hdest, deleteJob,
      alookup_aupdate, hs']
  · simp [pollerHandleJob, update_workflow_status, hdest, deleteJob]
  · simp [pollerHandleJob, update_workflow_status, hdest, deleteJob,
      alookup_aupdate, hw]
  · simp [pollerHandleJob, update_workflow_status, hdest, deleteJob]

/-- C1, witness: a concrete `LPCH` job resolving against a tracked
study. -/
theorem poller_terminal_resolution_witness :
    pollerColMap (strUpper "LPCH") = some .lpch ∧
    (alookup (pollerHandleJob ⟨"J1", "S1", "LPCH", 0⟩ (.ok "Success" none none) 7
        (DB.mk [("S1", freshRow ⟨some "S1", none, none, none⟩ 0)]
          [⟨"J1", "S1", "LPCH", 0⟩])).workflows "S1" =
      some (setTriple .lpch
        { sent_at := coalesce
            (getTriple .lpch (freshRow ⟨some "S1", none, none, none⟩ 0)).sent_at (some 7)
          send_success := some true
          send_error := none }
        { freshRow ⟨some "S1", none, none, none⟩ 0 with updated_at := 7 })) := by
  constructor
  · decide
  · exact (poller_terminal_resolution ⟨"J1", "S1", "LPCH", 0⟩ .lpch none none 7
      (DB.mk [("S1", freshRow ⟨some "S1", none, none, none⟩ 0)]
        [⟨"J1", "S1", "LPCH", 0⟩])
      (freshRow ⟨some "S1", none, none, none⟩ 0) (by decide) (by decide)).1.1

/-- Is a study's workflow row present? -/
def presentIn (db : DB) (sid : String) : Bool := (alookup db.workflows sid).isSome

theorem presentIn_syncStep_mono (orth : List (String × OrthancStudy)) (now : Nat)
    (rec : SyncRecord) (db : DB) (sid : String)
    (h : presentIn db sid = true) : presentIn (syncStep orth now db rec) sid = true := by
  cases horth : alookup orth rec.study_uid with
  | none => simpa [syncStep, horth] using h
  | some o =>
      cases hex : alookup db.workflows o.study_id with
      | some _ => simpa [syncStep, horth, hex] using h
      | none =>
          simp only [presentIn] at h
          cases hl : alookup db.workflows sid with
          | none => rw [hl] at h; simp at h
          | some v =>
              simp [syncStep, horth, hex, presentIn, alookup_append, hl, coalesce]

theorem presentIn_syncRun_mono (orth : List (String × OrthancStudy)) (now : Nat)
    (recs : List SyncRecord) (db : DB) (sid : String)
    (h : presentIn db sid = true) : presentIn (syncRun orth now recs db) sid = true := by
  induction recs generalizing db with
  | nil => exact h
  | cons r rs ih => exact ih (syncStep orth now db r) (presentIn_syncStep_mono _ _ _ _ _ h)

theorem presentIn_syncStep_target (orth : List (String × OrthancStudy)) (now : Nat)
    (rec : SyncRecord) (db : DB) (o : OrthancStudy)
    (h : alookup orth rec.study_uid = some o) :
    presentIn (syncStep orth now db rec) o.study_id = true := by
  cases hex : alookup db.workflows o.study_id with
  | some v => simp [syncStep, h, hex, presentIn]
  | none => simp [syncStep, h, hex, presentIn, alookup_append, coalesce]

theorem syncStep_noop (orth : List (String × OrthancStudy)) (now : Nat)
    (rec : SyncRecord) (db : DB)
    (h : ∀ o, alookup orth rec.study_uid = some o → presentIn db o.study_id = true) :
    syncStep orth now db rec = db := by
  cases horth : alookup orth rec.study_uid with
  | none => simp [syncStep, horth]
  | some o =>
      have hp := h o horth
      simp only [presentIn] at hp
      cases hex : alookup db.workflows o.study_id with
      | some _ => simp [syncStep, horth, hex]
      | none => rw [hex] at hp; simp at hp

theorem syncRun_targets_present (orth : List (String × OrthancStudy)) (now : Nat)
    (recs : List SyncRecord) (db : DB) :
    ∀ rec ∈ recs, ∀ o, alookup orth rec.study_uid = some o →
      presentIn (syncRun orth now recs db) o.study_id = true := by
  induction recs generalizing db with
  | nil => intro rec h; simp at h
  | cons r rs ih =>
      intro rec hmem o ho
      rcases List.mem_cons.mp hmem with h | h
      · subst h
        exact presentIn_syncRun_mono orth now rs (syncStep orth now db rec) o.study_id
          (presentIn_syncStep_target orth now rec db o ho)
      · exact ih (syncStep orth now db r) rec h o ho

theorem syncRun_noop (orth : List (String × OrthancStudy)) (now : Nat)
    (recs : List SyncRecord) (db : DB)
    (h : ∀ rec ∈ recs, ∀ o, alookup orth rec.study_uid = some o →
      presentIn db o.study_id = true) :
    syncRun orth now recs db = db := by
  induction recs with
  | nil => rfl
  | cons r rs ih =>
      have hstep : syncStep orth now db r = db :=
        syncStep_noop orth now r db (fun o ho => h r (List.mem_cons_self r rs) o ho)
      show syncRun orth now rs (syncStep orth now db r) = db
      rw [hstep]
      exact ih (fun rec hm o ho => h rec (List.mem_cons_of_mem r hm) o ho)

/-- C9: running the recovery sync twice in succession against unchanged
external systems (the same Bookkeeper records and the same Orthanc
study map) leaves the workflow store exactly as one run left it — every
study the first run inserted (or that already existed) is skipped by
the second run, so no duplicate insert occurs, even at a different
wall-clock time. -/
theorem sync_idempotent (orth : List (String × OrthancStudy)) (now1 now2 : Nat)
    (recs : List SyncRecord) (db : DB) :
    syncRun orth now2 recs (syncRun orth now1 recs db) = syncRun orth now1 recs db :=
  syncRun_noop orth now2 recs (syncRun orth now1 recs db)
    (fun rec hm o ho => syncRun_targets_present orth now1 recs db rec hm o ho)

/-- C7: for a window of 10 studies with 4 AI-results studies of which 3
routed successfully to all three destinations, the pipeline's "Routed
to Destinations" entry reports count 3 and percent 75.0 with base 4
(the AI-results count), and the "AI Results Back" entry's percent is
`pct(ai, mercure_completed or 1)` with base `mercure_completed` —
unchanged under any alteration of `total_studies`. -/
theorem funnel_percentage_bases (hours t : Nat) (stats : Stats)
    (h10 : stats.total_studies = 10) (h4 : stats.ai_results_received = 4)
    (h3 : stats.fully_complete = 3) :
    (buildFunnel hours stats).total_studies = 10 ∧
    ((buildFunnel hours stats).pipeline[4]?).map
        (fun e => (e.name, e.count, e.percent, e.base_count)) =
      some ("Routed to Destinations", 3, 75, some 4) ∧
    ((buildFunnel hours stats).pipeline[3]?).map
        (fun e => (e.name, e.percent, e.base_count)) =
      some ("AI Results Back to Orthanc",
        pct stats.total_studies stats.ai_results_received
          (some (orOne stats.mercure_completed)),
        some stats.mercure_completed) ∧
    ((buildFunnel hours { stats with total_studies := t }).pipeline[3]?).map
        (fun e => e.percent) =
      ((buildFunnel hours stats).pipeline[3]?).map (fun e => e.percent) := by
  refine ⟨?_, ?_, ?_, ?_⟩
  · simp [buildFunnel, h10]
  · have hpct : pct stats.total_studies 3 (some (orOne 4)) = 75 := by
      norm_num [pct, orOne, round1, pyRoundHalfEven, ratFloor]
    simp [buildFunnel, h4, h3, hpct]
  · simp [buildFunnel]
  · simp [buildFunnel, pct]

/-- C7, witness: a concrete statistics row for the scenario. -/
theorem funnel_percentage_bases_witness :
    (buildFunnel 24 ⟨10, 10, 9, 1, 8, 7, 6, 4, 5, 4, 3, 1, 4, 3, 1, 4, 3, 1, 3⟩).total_studies
      = 10 ∧
    ((buildFunnel 24 ⟨10, 10, 9, 1, 8, 7, 6, 4, 5, 4, 3, 1, 4, 3, 1, 4, 3, 1, 3⟩).pipeline[4]?).map
        (fun e => (e.name, e.count, e.percent, e.base_count)) =
      some ("Routed to Destinations", 3, 75, some 4) ∧
    ((buildFunnel 24 ⟨10, 10, 9, 1, 8, 7, 6, 4, 5, 4, 3, 1, 4, 3, 1, 4, 3, 1, 3⟩).pipeline[3]?).map
        (fun e => (e.name, e.percent, e.base_count)) =
      some ("AI Results Back to Orthanc",
        pct (Stats.total_studies ⟨10, 10, 9, 1, 8, 7, 6, 4, 5, 4, 3, 1, 4, 3, 1, 4, 3, 1, 3⟩)
          (Stats.ai_results_received ⟨10, 10, 9, 1, 8, 7, 6, 4, 5, 4, 3, 1, 4, 3, 1, 4, 3, 1, 3⟩)
          (some (orOne (Stats.mercure_completed ⟨10, 10, 9, 1, 8, 7, 6, 4, 5, 4, 3, 1, 4, 3, 1, 4, 3, 1, 3⟩))),
        some (Stats.mercure_completed ⟨10, 10, 9, 1, 8, 7, 6, 4, 5, 4, 3, 1, 4, 3, 1, 4, 3, 1, 3⟩)) ∧
    ((buildFunnel 24 { (⟨10, 10, 9, 1, 8, 7, 6, 4, 5, 4, 3, 1, 4, 3, 1, 4, 3, 1, 3⟩ : Stats) with
        total_studies := 1000 }).pipeline[3]?).map (fun e => e.percent) =
      ((buildFunnel 24 ⟨10, 10, 9, 1, 8, 7, 6, 4, 5, 4, 3, 1, 4, 3, 1, 4, 3, 1, 3⟩).pipeline[3]?).map
        (fun e => e.percent) :=
  funnel_percentage_bases 24 1000 ⟨10, 10, 9, 1, 8, 7, 6, 4, 5, 4, 3, 1, 4, 3, 1, 4, 3, 1, 3⟩
    rfl rfl rfl

/-- C8, counterexample: the claim says every tracking endpoint returns
400 when `study_id` is missing; `track_destination` never validates
`study_id`, so a body with only a recognized destination yields
`200 {ok: true}` (the update's `study_id = NULL` comparison matches no
row, so there is no state change either). -/
theorem track_destination_missing_study_id_ok :
    track_destination none (some "LPCH") (.bool true) none 5 DB.empty = (200, DB.empty) ∧
    (track_destination none (some "LPCH") (.bool true) none 5 DB.empty).1 ≠ 400 := by
  decide

/-- C8, amended: `/track/start` (missing `study_id`) and `/track/job`
(missing or empty `job_id`/`study_id`/`destination`) return 400 with no
state change; `/track/destination` returns 400 (no state change) only
for an unrecognized non-MERCURE destination; a missing `study_id` on
`/track/destination` or `/track/mercure-sent` is not validated — the
handler returns 200 and the `WHERE study_id = NULL` update matches no
row, so the store is unchanged. -/
theorem tracking_validation (body : StartBody) (j s d sid : Option String)
    (v : SuccessVal) (e : Option String) (now : Nat) (db : DB) :
    (body.study_id = none → track_start body now db = (400, db)) ∧
    (truthy j = false ∨ truthy s = false ∨ strUpper (d.getD "") = "" →
      track_job j s d now db = (400, db)) ∧
    (strUpper (d.getD "") ≠ "MERCURE" → destColMap (strUpper (d.getD "")) = none →
      track_destination sid d v e now db = (400, db)) ∧
    (strUpper (d.getD "") = "MERCURE" ∨ destColMap (strUpper (d.getD "")) ≠ none →
      track_destination none d v e now db = (200, db)) ∧
    track_mercure_sent none v e now db = (200, db) := by
  refine ⟨?_, ?_, ?_, ?_, rfl⟩
  · intro h
    simp [track_start, h]
  · intro h
    rcases h with h | h | h
    · simp [track_job, h]
    · simp [track_job, h]
    · simp [track_job, h]
  · intro hm hcol
    simp [track_destination, hm, hcol]
  · intro h
    rcases h with h | h
    · simp [track_destination, h, updateWhere]
    · cases hq : destColMap (strUpper (d.getD "")) with
      | none => exact absurd hq h
      | some q =>
          by_cases hm : strUpper (d.getD "") = "MERCURE"
          · simp [track_destination, hm, updateWhere]
          · simp [track_destination, hm, hq, updateWhere]

/-- C8, witness: the validation behavior at concrete requests. -/
theorem tracking_validation_witness :
    track_start ⟨none, none, none, none⟩ 5 DB.empty = (400, DB.empty) ∧
    track_job none (some "S1") (some "LPCH") 5 DB.empty = (400, DB.empty) ∧
    track_destination (some "Sx") (some "FOO") (.bool true) none 5 DB.empty
      = (400, DB.empty) ∧
    track_destination none (some "LPCH") (.bool true) none 5 DB.empty
      = (200, DB.empty) ∧
    track_mercure_sent none (.bool true) none 5 DB.empty = (200, DB.empty) :=
  ⟨(tracking_validation ⟨none, none, none, none⟩ none (some "S1") (some "LPCH")
      (some "Sx") (.bool true) none 5 DB.empty).1 rfl,
   (tracking_validation ⟨none, none, none, none⟩ none (some "S1") (some "LPCH")
      (some "Sx") (.bool true) none 5 DB.empty).2.1 (Or.inl rfl),
   (tracking_validation ⟨none, none, none, none⟩ none (some "S1") (some "FOO")
      (some "Sx") (.bool true) none 5 DB.empty).2.2.1 (by decide) (by decide),
   (tracking_validation ⟨none, none, none, none⟩ none (some "S1") (some "LPCH")
      (some "Sx") (.bool true) none 5 DB.empty).2.2.2.1 (Or.inr (by decide)),
   (tracking_validation ⟨none, none, none, none⟩ none (some "S1") (some "LPCH")
      (some "Sx") (.bool true) none 5 DB.empty).2.2.2.2⟩

/-- For a workflow row present before and after one operation, its
`send_success` column of family `p` afterwards is exactly the value the
operation writes (per `writesSuccess`), or the prior value if the
operation does not write that column. -/
theorem success_write_characterization (op : Op) (now : Nat) (db : DB) (s : String)
    (p : Dest) (w w' : StudyWorkflow)
    (hw : alookup db.workflows s = some w)
    (hw' : alookup (applyOp op now db).workflows s = some w') :
    (getTriple p w').send_success =
      (writesSuccess db op s p).getD ((getTriple p w).send_success) := by
  cases op with
  | start b =>
      cases hsid : b.study_id with
      | none =>
          simp only [applyOp, track_start, hsid] at hw'
          rw [hw] at hw'
          obtain rfl := Option.some.inj hw'
          rfl
      | some sid =>
          simp only [applyOp, track_start, hsid] at hw'
          cases hex : alookup db.workflows sid with
          | none =>
              simp only [hex] at hw'
              rw [alookup_append, hw] at hw'
              obtain rfl := Option.some.inj (by simpa [coalesce] using hw')
              rfl
          | some wx =>
              simp only [hex] at hw'
              rw [alookup_aupdate] at hw'
              by_cases hss : s = sid
              · rw [if_pos hss, hw] at hw'
                rw [Option.map_some'] at hw'
                obtain rfl := Option.some.inj hw'
                cases p <;> rfl
              · rw [if_neg hss, hw] at hw'
                obtain rfl := Option.some.inj hw'
                rfl
  | mercureSent sid v e =>
      simp only [applyOp, track_mercure_sent] at hw'
      rw [lookup_updateWhere] at hw'
      by_cases hsid : sid = some s
      · rw [if_pos hsid, hw] at hw'
        rw [Option.map_some'] at hw'
        obtain rfl := Option.some.inj hw'
        by_cases hp : p = Dest.mercure
        · subst hp
          simp [writesSuccess, hsid, getTriple]
        · have hcond : ¬(sid = some s ∧ p = Dest.mercure) := fun hc => hp hc.2
          simp only [writesSuccess, if_neg hcond]
          cases p with
          | mercure => exact absurd rfl hp
          | lpch => rfl
          | lpcht => rfl
          | modlink => rfl
      · rw [if_neg hsid, hw] at hw'
        obtain rfl := Option.some.inj hw'
        have hcond : ¬(sid = some s ∧ p = Dest.mercure) := fun hc => hsid hc.1
        simp [writesSuccess, hcond]
  | aiResults sid =>
      simp only [applyOp, track_ai_results] at hw'
      rw [lookup_updateWhere] at hw'
      by_cases hsid : sid = some s
      · rw [if_pos hsid, hw] at hw'
        rw [Option.map_some'] at hw'
        obtain rfl := Option.some.inj hw'
        by_cases hp : p = Dest.mercure
        · subst hp
          simp [writesSuccess, hsid, getTriple]
        · have hcond : ¬(sid = some s ∧ p = Dest.mercure) := fun hc => hp hc.2
          simp only [writesSuccess, if_neg hcond]
          cases p with
          | mercure => exact absurd rfl hp
          | lpch => rfl
          | lpcht => rfl
          | modlink => rfl
      · rw [if_neg hsid, hw] at hw'
        obtain rfl := Option.some.inj hw'
        have hcond : ¬(sid = some s ∧ p = Dest.mercure) := fun hc => hsid hc.1
        simp [writesSuccess, hcond]
  | destSend sid dst v e =>
      by_cases hm : strUpper (dst.getD "") = "MERCURE"
      · simp only [applyOp, track_destination, hm, if_true] at hw'
        rw [lookup_updateWhere] at hw'
        by_cases hsid : sid = some s
        · rw [if_pos hsid, hw] at hw'
          rw [Option.map_some'] at hw'
          obtain rfl := Option.some.inj hw'
          by_cases hp : p = Dest.mercure
          · subst hp
            simp [writesSuccess, hsid, hm, getTriple]
          · have hws : writesSuccess db (.destSend sid dst v e) s p = none := by
              simp [writesSuccess, hsid, hm, hp]
            rw [hws]
            cases p with
            | mercure => exact absurd rfl hp
            | lpch => rfl
            | lpcht => rfl
            | modlink => rfl
        · rw [if_neg hsid, hw] at hw'
          obtain rfl := Option.some.inj hw'
          simp [writesSuccess, hsid]
      · cases hq : destColMap (strUpper (dst.getD "")) with
        | none =>
            simp only [applyOp, track_destination, if_neg hm, hq] at hw'
            rw [hw] at hw'
            obtain rfl := Option.some.inj hw'
            by_cases hsid : sid = some s
            · simp [writesSuccess, hsid, hm, hq]
            · simp [writesSuccess, hsid]
        | some q =>
            simp only [applyOp, track_destination, if_neg hm, hq] at hw'
            rw [lookup_updateWhere] at hw'
            by_cases hsid : sid = some s
            · rw [if_pos hsid, hw] at hw'
              rw [Option.map_some'] at hw'
              obtain rfl := Option.some.inj hw'
              by_cases hp : q = p
              · subst hp
                simp [writesSuccess, hsid, hm, hq]
              · have hws : writesSuccess db (.destSend sid dst v e) s p = none := by
                  simp [writesSuccess, hsid, hm, hq, hp]
                rw [hws]
                rw [getTriple_setTriple_ne p q _ _ hp, getTriple_update_meta]
                rfl
            · rw [if_neg hsid, hw] at hw'
              obtain rfl := Option.some.inj hw'
              simp [writesSuccess, hsid]
  | reset sid =>
      cases sid with
      | none =>
          simp only [applyOp, track_reset] at hw'
          rw [hw] at hw'
          obtain rfl := Option.some.inj hw'
          rfl
      | some s0 =>
          simp only [applyOp, track_reset] at hw'
          rw [alookup_adelete] at hw'
          by_cases hss : s = s0
          · rw [if_pos hss] at hw'
            exact absurd hw' (by simp)
          · rw [if_neg hss, hw] at hw'
            obtain rfl := Option.some.inj hw'
            rfl
  | regJob jid sid dst =>
      have hkeep : ((track_job jid sid dst now db).2).workflows = db.workflows := by
        simp only [track_job]
        split
        · split <;> rfl
        · rfl
      simp only [applyOp] at hw'
      rw [hkeep, hw] at hw'
      obtain rfl := Option.some.inj hw'
      rfl
  | pollJob jid resp =>
      cases hf : db.jobs.find? (fun j => j.job_id = jid) with
      | none =>
          simp only [applyOp, hf] at hw'
          rw [hw] at hw'
          obtain rfl := Option.some.inj hw'
          simp [writesSuccess, hf]
      | some j =>
          simp only [applyOp, hf] at hw'
          cases resp with
          | notFound =>
              simp only [pollerHandleJob, deleteJob] at hw'
              rw [hw] at hw'
              obtain rfl := Option.some.inj hw'
              simp [writesSuccess, hf]
          | transportError =>
              simp only [pollerHandleJob] at hw'
              rw [hw] at hw'
              obtain rfl := Option.some.inj hw'
              simp [writesSuccess, hf]
          | ok st desc code =>
              by_cases hS : st = "Success"
              · subst hS
                cases hcm : pollerColMap (strUpper j.destination) with
                | none =>
                    simp [pollerHandleJob, update_workflow_status, hcm, deleteJob] at hw'
                    rw [hw] at hw'
                    obtain rfl := Option.some.inj hw'
                    simp [writesSuccess, hf, hcm]
                | some q =>
                    simp [pollerHandleJob, update_workflow_status, hcm, deleteJob,
                      alookup_aupdate, hw] at hw'
                    by_cases hjs : s = j.study_id
                    · rw [if_pos hjs] at hw'
                      obtain rfl := Option.some.inj hw'
                      by_cases hqp : q = p
                      · subst hqp
                        simp [writesSuccess, hf, hcm, hjs.symm]
                      · have hws : writesSuccess db (.pollJob jid (.ok "Success" desc code))
                            s p = none := by
                          have hcond : ¬(pollerColMap (strUpper j.destination) = some p ∧
                              j.study_id = s) := by
                            intro hc
                            exact hqp (Option.some.inj (hcm.symm.trans hc.1))
                          simp [writesSuccess, hf, hcond]
                        rw [hws]
                        rw [getTriple_setTriple_ne p q _ _ hqp, getTriple_update_meta]
                        rfl
                    · rw [if_neg hjs] at hw'
                      obtain rfl := Option.some.inj hw'
                      have hcond : ¬(pollerColMap (strUpper j.destination) = some p ∧
                          j.study_id = s) := fun hc => hjs hc.2.symm
                      simp [writesSuccess, hf, hcond]
              · by_cases hF : st = "Failure"
                · subst hF
                  cases hcm : pollerColMap (strUpper j.destination) with
                  | none =>
                      simp [pollerHandleJob, update_workflow_status, hcm, deleteJob] at hw'
                      rw [hw] at hw'
                      obtain rfl := Option.some.inj hw'
                      simp [writesSuccess, hf, hcm]
                  | some q =>
                      simp [pollerHandleJob, update_workflow_status, hcm, deleteJob,
                        alookup_aupdate, hw] at hw'
                      by_cases hjs : s = j.study_id
                      · rw [if_pos hjs] at hw'
                        obtain rfl := Option.some.inj hw'
                        by_cases hqp : q = p
                        · subst hqp
                          simp [writesSuccess, hf, hcm, hjs.symm]
                        · have hws : writesSuccess db (.pollJob jid (.ok "Failure" desc code))
                              s p = none := by
                            have hcond : ¬(pollerColMap (strUpper j.destination) = some p ∧
                                j.study_id = s) := by
                              intro hc
                              exact hqp (Option.some.inj (hcm.symm.trans hc.1))
                            simp [writesSuccess, hf, hcond]
                          rw [hws]
                          rw [getTriple_setTriple_ne p q _ _ hqp, getTriple_update_meta]
                          rfl
                      · rw [if_neg hjs] at hw'
                        obtain rfl := Option.some.inj hw'
                        have hcond : ¬(pollerColMap (strUpper j.destination) = some p ∧
                            j.study_id = s) := fun hc => hjs hc.2.symm
                        simp [writesSuccess, hf, hcond]
                · simp [pollerHandleJob, hS, hF] at hw'
                  rw [hw] at hw'
                  obtain rfl := Option.some.inj hw'
                  have hws : writesSuccess db (.pollJob jid (.ok st desc code)) s p = none := by
                    simp [writesSuccess, hf, hS, hF]
                  rw [hws]
                  rfl
  | enrich sid bk =>
      simp only [applyOp, enrichStudyStep] at hw'
      rw [alookup_aupdate] at hw'
      by_cases hss : s = sid
      · rw [if_pos hss, hw] at hw'
        rw [Option.map_some'] at hw'
        obtain rfl := Option.some.inj hw'
        cases p <;> rfl
      · rw [if_neg hss, hw] at hw'
        obtain rfl := Option.some.inj hw'
        rfl

/-- The only operations whose `send_success` write is an explicit SQL
`NULL` are `/track/destination` and `/track/mercure-sent` requests whose
body carries `success: null`. -/
theorem success_null_writer (db : DB) (op : Op) (s : String) (p : Dest)
    (h : writesSuccess db op s p = some none) :
    (∃ e, op = .mercureSent (some s) .null e ∧ p = .mercure) ∨
    (∃ dst e, op = .destSend (some s) dst .null e) := by
  cases op with
  | start b => simp [writesSuccess] at h
  | mercureSent sid v e =>
      left
      by_cases hc : sid = some s ∧ p = Dest.mercure
      · obtain ⟨h1, h2⟩ := hc
        cases v with
        | null => exact ⟨e, by rw [h1], h2⟩
        | absent => simp [writesSuccess, h1, h2, SuccessVal.toDb] at h
        | bool b => simp [writesSuccess, h1, h2, SuccessVal.toDb] at h
      · simp [writesSuccess, hc] at h
  | aiResults sid =>
      by_cases hc : sid = some s ∧ p = Dest.mercure
      · simp [writesSuccess, hc] at h
      · simp [writesSuccess, hc] at h
  | destSend sid dst v e =>
      right
      by_cases hsid : sid = some s
      · by_cases hm : strUpper (dst.getD "") = "MERCURE"
        · by_cases hp : p = Dest.mercure
          · cases v with
            | null => exact ⟨dst, e, by rw [hsid]⟩
            | absent => simp [writesSuccess, hsid, hm, hp, SuccessVal.toDb] at h
            | bool b => simp [writesSuccess, hsid, hm, hp, SuccessVal.toDb] at h
          · simp [writesSuccess, hsid, hm, hp] at h
        · cases hq : destColMap (strUpper (dst.getD "")) with
          | none => simp [writesSuccess, hsid, hm, hq] at h
          | some q =>
              by_cases hp : q = p
              · cases v with
                | null => exact ⟨dst, e, by rw [hsid]⟩
                | absent => simp [writesSuccess, hsid, hm, hq, hp, SuccessVal.toDb] at h
                | bool b => simp [writesSuccess, hsid, hm, hq, hp, SuccessVal.toDb] at h
              · simp [writesSuccess, hsid, hm, hq, hp] at h
      · simp [writesSuccess, hsid] at h
  | reset sid => simp [writesSuccess] at h
  | regJob a b c => simp [writesSuccess] at h
  | pollJob jid resp =>
      cases hf : db.jobs.find? (fun j => j.job_id = jid) with
      | none => simp [writesSuccess, hf] at h
      | some j =>
          cases resp with
          | notFound => simp [writesSuccess, hf] at h
          | transportError => simp [writesSuccess, hf] at h
          | ok st desc code =>
              by_cases hc : pollerColMap (strUpper j.destination) = some p ∧ j.study_id = s
              · by_cases hS : st = "Success"
                · simp [writesSuccess, hf, hc, hS] at h
                · by_cases hF : st = "Failure"
                  · simp [writesSuccess, hf, hc, hS, hF] at h
                  · simp [writesSuccess, hf, hc, hS, hF] at h
              · simp [writesSuccess, hf, hc] at h
  | enrich sid bk => simp [writesSuccess] at h

/-- C2 (amended): for a row present before and after any interleaved
operation, the destination's tri-state `send_success` stays at its
prior value unless the operation writes an outcome for that column
family (poller `Success`/`Failure` resolution, `/track/destination`,
`/track/mercure-sent`, or — for the gateway family — `/track/ai-results`),
in which case it becomes exactly the written value; the only write
whose value is `NULL` (reverting the field) is a `/track/destination`
or `/track/mercure-sent` request whose body explicitly carries
`success: null`. -/
theorem triState_success_invariant (op : Op) (now : Nat) (db : DB) (s : String)
    (p : Dest) (w w' : StudyWorkflow)
    (hw : alookup db.workflows s = some w)
    (hw' : alookup (applyOp op now db).workflows s = some w') :
    (getTriple p w').send_success =
      (writesSuccess db op s p).getD ((getTriple p w).send_success) ∧
    (writesSuccess db op s p = some none →
      (∃ e, op = .mercureSent (some s) .null e ∧ p = .mercure) ∨
      (∃ dst e, op = .destSend (some s) dst .null e)) :=
  ⟨success_write_characterization op now db s p w w' hw hw',
   fun h => success_null_writer db op s p h⟩

/-- C2, counterexample: the claim's list of outcome-recording
operations is incomplete and its never-revert guarantee fails. First, a
sequence containing no poller resolution, no `/track/destination` and
no `/track/mercure-sent` call — just `/track/start` then
`/track/ai-results` — leaves `mercure_send_success = true`, not null.
Second, a `/track/destination` call whose body carries `success: null`
(Python `data.get('success', False)` returns `None`) reverts an
already-recorded `lpch_send_success = true` back to SQL `NULL`. -/
theorem triState_claim_false :
    (alookup (applyOps [(.start ⟨some "S1", none, none, none⟩, 0),
        (.aiResults (some "S1"), 1)] DB.empty).workflows "S1").map
      (fun w => w.mercure.send_success) = some (some true) ∧
    ([(Op.start ⟨some "S1", none, none, none⟩, 0),
      (Op.aiResults (some "S1"), 1)].all
        (fun q => match q.1 with
          | .pollJob _ _ => false
          | .destSend _ _ _ _ => false
          | .mercureSent _ _ _ => false
          | _ => true)) = true ∧
    (alookup (applyOp (.destSend (some "S1") (some "LPCH") (.bool true) none) 1
        (applyOp (.start ⟨some "S1", none, none, none⟩) 0 DB.empty)).workflows "S1").map
      (fun w => w.lpch.send_success) = some (some true) ∧
    (alookup (applyOp (.destSend (some "S1") (some "LPCH") .null none) 2
        (applyOp (.destSend (some "S1") (some "LPCH") (.bool true) none) 1
          (applyOp (.start ⟨some "S1", none, none, none⟩) 0 DB.empty))).workflows "S1").map
      (fun w => w.lpch.send_success) = some none := by
  decide

/-- C2, witness for the amended invariant: a recorded `lpch` outcome at
a concrete `/track/destination` write. -/
theorem triState_success_invariant_witness :
    (getTriple .lpch (setTriple .lpch ⟨some 2, some true, none⟩
        { freshRow ⟨some "S1", none, none, none⟩ 0 with updated_at := 2 })).send_success =
      (writesSuccess (track_start ⟨some "S1", none, none, none⟩ 0 DB.empty).2
          (.destSend (some "S1") (some "LPCH") (.bool true) none) "S1" .lpch).getD
        ((getTriple .lpch (freshRow ⟨some "S1", none, none, none⟩ 0)).send_success) ∧
    (writesSuccess (track_start ⟨some "S1", none, none, none⟩ 0 DB.empty).2
        (.destSend (some "S1") (some "LPCH") (.bool true) none) "S1" .lpch = some none →
      (∃ e, (Op.destSend (some "S1") (some "LPCH") (.bool true) none) =
        .mercureSent (some "S1") .null e ∧ Dest.lpch = .mercure) ∨
      (∃ dst e, (Op.destSend (some "S1") (some "LPCH") (.bool true) none) =
        .destSend (some "S1") dst .null e)) :=
  triState_success_invariant (.destSend (some "S1") (some "LPCH") (.bool true) none) 2
    (track_start ⟨some "S1", none, none, none⟩ 0 DB.empty).2 "S1" .lpch
    (freshRow ⟨some "S1", none, none, none⟩ 0)
    (setTriple .lpch ⟨some 2, some true, none⟩
      { freshRow ⟨some "S1", none, none, none⟩ 0 with updated_at := 2 })
    (by decide) (by decide)

end LegLength
